import Mathlib

/-!
Shallow embedding of the libjade rectangle/polygon item geometry
(`DrawingRectItem.cpp`, `DrawingRectItem.h`, `DrawingPolygonItem.h`).

Coordinates (C++ `qreal`) are modelled as rationals, so every geometric
computation here is exact and decidable.  Parts of the library whose
implementation files are not available (`DrawingItem.cpp`,
`DrawingItemStyle.cpp`, `DrawingPolygonItem.cpp`) are modelled from the
specification; each such definition carries a doc comment saying so.
-/

namespace LibJade

/-- A 2D point (models `QPointF`). -/
structure PointF where
  x : ℚ
  y : ℚ
deriving DecidableEq, Repr

instance : Add PointF := ⟨fun p q => ⟨p.x + q.x, p.y + q.y⟩⟩

instance : Neg PointF := ⟨fun p => ⟨-p.x, -p.y⟩⟩

instance : Sub PointF := ⟨fun p q => ⟨p.x - q.x, p.y - q.y⟩⟩

/-- The origin point `QPointF(0, 0)`. -/
def pOrigin : PointF := ⟨0, 0⟩

/-- A rectangle stored as left/top/width/height (models `QRectF`). -/
structure RectF where
  x : ℚ
  y : ℚ
  w : ℚ
  h : ℚ
deriving DecidableEq, Repr

namespace RectF

/-- `QRectF::left()`. -/
def left (r : RectF) : ℚ := r.x

/-- `QRectF::top()`. -/
def top (r : RectF) : ℚ := r.y

/-- `QRectF::right()` (`x + w`). -/
def right (r : RectF) : ℚ := r.x + r.w

/-- `QRectF::bottom()` (`y + h`). -/
def bottom (r : RectF) : ℚ := r.y + r.h

/-- x-coordinate of `QRectF::center()`. -/
def centerX (r : RectF) : ℚ := r.x + r.w / 2

/-- y-coordinate of `QRectF::center()`. -/
def centerY (r : RectF) : ℚ := r.y + r.h / 2

/-- `QRectF(topLeft, bottomRight)` from two corner points. -/
def fromPoints (tl br : PointF) : RectF := ⟨tl.x, tl.y, br.x - tl.x, br.y - tl.y⟩

/-- The default-constructed `QRectF()`: the null rect. -/
def nullRect : RectF := ⟨0, 0, 0, 0⟩

/-- `QRectF::setTopLeft(p)`: moves the top-left corner, keeping right/bottom fixed. -/
def setTopLeft (r : RectF) (p : PointF) : RectF :=
  ⟨p.x, p.y, r.right - p.x, r.bottom - p.y⟩

/-- `QRectF::setTop(t)`: moves the top edge, keeping the bottom fixed. -/
def setTop (r : RectF) (t : ℚ) : RectF := ⟨r.x, t, r.w, r.bottom - t⟩

/-- `QRectF::setTopRight(p)`: moves the top-right corner, keeping left/bottom fixed. -/
def setTopRight (r : RectF) (p : PointF) : RectF :=
  ⟨r.x, p.y, p.x - r.x, r.bottom - p.y⟩

/-- `QRectF::setRight(v)`: moves the right edge, keeping the left fixed. -/
def setRight (r : RectF) (v : ℚ) : RectF := ⟨r.x, r.y, v - r.x, r.h⟩

/-- `QRectF::setBottomRight(p)`: moves the bottom-right corner, keeping left/top fixed. -/
def setBottomRight (r : RectF) (p : PointF) : RectF :=
  ⟨r.x, r.y, p.x - r.x, p.y - r.y⟩

/-- `QRectF::setBottom(v)`: moves the bottom edge, keeping the top fixed. -/
def setBottom (r : RectF) (v : ℚ) : RectF := ⟨r.x, r.y, r.w, v - r.y⟩

/-- `QRectF::setBottomLeft(p)`: moves the bottom-left corner, keeping right/top fixed. -/
def setBottomLeft (r : RectF) (p : PointF) : RectF :=
  ⟨p.x, r.y, r.right - p.x, p.y - r.y⟩

/-- `QRectF::setLeft(v)`: moves the left edge, keeping the right fixed. -/
def setLeft (r : RectF) (v : ℚ) : RectF := ⟨v, r.y, r.right - v, r.h⟩

/-- `QRectF::normalized()`: flips the rect so that width and height are non-negative. -/
def normalized (r : RectF) : RectF :=
  let r1 : RectF := if r.w < 0 then ⟨r.x + r.w, r.y, -r.w, r.h⟩ else r
  if r1.h < 0 then ⟨r1.x, r1.y + r1.h, r1.w, -r1.h⟩ else r1

/-- `QRectF::adjust(dx1, dy1, dx2, dy2)`. -/
def adjust (r : RectF) (dx1 dy1 dx2 dy2 : ℚ) : RectF :=
  ⟨r.x + dx1, r.y + dy1, r.w + dx2 - dx1, r.h + dy2 - dy1⟩

end RectF

/-- A 2D affine transform (models the affine part of `QTransform`):
`map(p) = (m11*p.x + m21*p.y + dx, m12*p.x + m22*p.y + dy)`. -/
structure Transform2D where
  m11 : ℚ
  m12 : ℚ
  m21 : ℚ
  m22 : ℚ
  dx : ℚ
  dy : ℚ
deriving DecidableEq, Repr

/-- `QTransform::map(QPointF)`. -/
def Transform2D.apply (t : Transform2D) (p : PointF) : PointF :=
  ⟨t.m11 * p.x + t.m21 * p.y + t.dx, t.m12 * p.x + t.m22 * p.y + t.dy⟩

/-- The identity transform. -/
def Transform2D.identity : Transform2D := ⟨1, 0, 0, 1, 0, 0⟩

/-- A transform is linear when its translation components vanish. -/
def Transform2D.IsLinear (t : Transform2D) : Prop := t.dx = 0 ∧ t.dy = 0

/-- The style properties of `DrawingItemStyle` seeded by the
`DrawingRectItem` constructor (pen and brush properties). -/
inductive StyleProperty where
  | penStyle
  | penColor
  | penOpacity
  | penWidth
  | penCapStyle
  | penJoinStyle
  | brushStyle
  | brushColor
  | brushOpacity
deriving DecidableEq, Repr

/-- A style value (models the `QVariant` payloads used for the pen/brush
properties: enum values cast to `uint`, reals, and colors). -/
inductive StyleValue where
  | invalid
  | uintVal (n : ℕ)
  | realVal (q : ℚ)
  | colorVal (r g b : ℕ)
deriving DecidableEq, Repr

/-- `QVariant::toReal()`: a real value converts to itself, a `uint` to its
numeric value, anything else to `0`. -/
def StyleValue.toReal : StyleValue → ℚ
  | .realVal q => q
  | .uintVal n => (n : ℚ)
  | _ => 0

/-- A shared table of default style values (the default value table of
`DrawingItemStyle`), passed explicitly per the design notes of the spec. -/
def DefaultTable : Type := StyleProperty → Option StyleValue

/-- The own style table of an item: the locally stored values. -/
structure ItemStyle where
  localValue : StyleProperty → Option StyleValue

/-- A style table with no local entries. -/
def ItemStyle.empty : ItemStyle := ⟨fun _ => none⟩

/-- Modelled from the spec (`DrawingItemStyle.cpp` is not in src/):
`valueLookup(key, fallback)` returns the local value if present, else the
default-table value for the key if present, else the fallback. -/
def valueLookup (style : ItemStyle) (defaults : DefaultTable)
    (key : StyleProperty) (fallback : StyleValue) : StyleValue :=
  match style.localValue key with
  | some v => v
  | none =>
    match defaults key with
    | some v => v
    | none => fallback

/-- Modelled from the spec (`DrawingItemStyle.cpp` is not in src/):
`setValue(key, value)` overwrites the local entry unconditionally. -/
def ItemStyle.setValue (style : ItemStyle) (key : StyleProperty) (v : StyleValue) : ItemStyle :=
  ⟨fun k => if k = key then some v else style.localValue k⟩

/-- The hardcoded `QVariant` fallbacks passed to `valueLookup` by the
`DrawingRectItem` constructor (`Qt::SolidLine = 1`, black, opacity 1.0,
width 12.0, `Qt::RoundCap = 0x20`, `Qt::RoundJoin = 0x80`,
`Qt::SolidPattern = 1`, white, opacity 1.0). -/
def constructorFallback : StyleProperty → StyleValue
  | .penStyle => .uintVal 1
  | .penColor => .colorVal 0 0 0
  | .penOpacity => .realVal 1
  | .penWidth => .realVal 12
  | .penCapStyle => .uintVal 32
  | .penJoinStyle => .uintVal 128
  | .brushStyle => .uintVal 1
  | .brushColor => .colorVal 255 255 255
  | .brushOpacity => .realVal 1

/-- The nine properties seeded by the constructor, in source order. -/
def seededProperties : List StyleProperty :=
  [.penStyle, .penColor, .penOpacity, .penWidth, .penCapStyle, .penJoinStyle,
   .brushStyle, .brushColor, .brushOpacity]

/-- The constructor style seeding: for each property in order,
`style->setValue(key, style->valueLookup(key, fallback))`. -/
def seedStyle (defaults : DefaultTable) : ItemStyle :=
  seededProperties.foldl
    (fun st k => st.setValue k (valueLookup st defaults k (constructorFallback k)))
    ItemStyle.empty

/-- State of a `DrawingRectItem`: scene position, transform (with its stored
inverse, as in `DrawingItem`), the ordered item-point positions, the two
corner-radius fields, and the own style table of the item. -/
structure RectItem where
  position : PointF
  transform : Transform2D
  transformInverse : Transform2D
  points : List PointF
  cornerRadiusX : ℚ
  cornerRadiusY : ℚ
  style : ItemStyle

/-- Modelled from the spec (`DrawingItem.cpp` is not in src/):
`mapToScene(p)` applies the item transform, then translates by the item
position (spec §4.4: local → transform → translate by position → scene). -/
def RectItem.mapToScene (item : RectItem) (p : PointF) : PointF :=
  item.transform.apply p + item.position

/-- Modelled from the spec (`DrawingItem.cpp` is not in src/):
`mapFromScene(q)` is the inverse composition: translate back by the item
position, then apply the stored inverse transform. -/
def RectItem.mapFromScene (item : RectItem) (q : PointF) : PointF :=
  item.transformInverse.apply (q - item.position)

/-- The `DrawingRectItem` constructor: corner radii zero, eight item points
at `(0, 0)`, and the nine pen/brush style properties resolved via
`valueLookup` against the current defaults and written back locally. -/
def newRectItem (defaults : DefaultTable) : RectItem :=
  { position := pOrigin
    transform := Transform2D.identity
    transformInverse := Transform2D.identity
    points := List.replicate 8 pOrigin
    cornerRadiusX := 0
    cornerRadiusY := 0
    style := seedStyle defaults }

/-- `DrawingRectItem::setCornerRadii(radiusX, radiusY)`, translated assignment
by assignment: `mCornerRadiusX = radiusX; mCornerRadiusX = radiusY;`
(the second assignment targets the X field again). -/
def RectItem.setCornerRadii (item : RectItem) (radiusX radiusY : ℚ) : RectItem :=
  let item1 := { item with cornerRadiusX := radiusX }
  { item1 with cornerRadiusX := radiusY }

/-- The eight point positions derived from a rect, in the order used by
`DrawingRectItem::setRect` and `DrawingRectItem::resizeItem`:
corners at indices 0, 2, 4, 6 and edge midpoints at indices 1, 3, 5, 7. -/
def rectPoints (r : RectF) : List PointF :=
  [⟨r.left, r.top⟩, ⟨r.centerX, r.top⟩, ⟨r.right, r.top⟩, ⟨r.right, r.centerY⟩,
   ⟨r.right, r.bottom⟩, ⟨r.centerX, r.bottom⟩, ⟨r.left, r.bottom⟩, ⟨r.left, r.centerY⟩]

/-- `DrawingRectItem::setRect(rect)`: assigns the positions of points 0–7
from the rect (precondition in the C++: the item has at least 8 points). -/
def RectItem.setRect (item : RectItem) (r : RectF) : RectItem :=
  { item with points := rectPoints r ++ item.points.drop 8 }

/-- `DrawingRectItem::rect()`: the rect spanned by points 0 and 4 when the
item has at least 8 points, else the default `QRectF()`. -/
def RectItem.rect (item : RectItem) : RectF :=
  if 8 ≤ item.points.length then
    RectF.fromPoints (item.points.getD 0 pOrigin) (item.points.getD 4 pOrigin)
  else RectF.nullRect

/-- `DrawingRectItem::isValid()`: at least 8 points and points 0 and 4 at
different positions. -/
def RectItem.isValid (item : RectItem) : Bool :=
  decide (8 ≤ item.points.length ∧
    item.points.getD 0 pOrigin ≠ item.points.getD 4 pOrigin)

/-- `DrawingRectItem::boundingRect()`: for a valid item, the normalized
`rect()` adjusted outward by half the pen width resolved from the style;
for an invalid item, the default `QRectF()`. -/
def RectItem.boundingRect (item : RectItem) (defaults : DefaultTable) : RectF :=
  if item.isValid then
    let penWidth := (valueLookup item.style defaults .penWidth .invalid).toReal
    (item.rect.normalized).adjust (-(penWidth / 2)) (-(penWidth / 2)) (penWidth / 2) (penWidth / 2)
  else RectF.nullRect

/-- A painter path, modelled as the tree of path-building operations
performed by `DrawingRectItem::shape()`. -/
inductive PainterPath where
  | empty
  | roundedRect (r : RectF) (rx ry : ℚ)
  | stroke (p : PainterPath) (penWidth : ℚ)
  | unionPath (p q : PainterPath)
deriving DecidableEq, Repr

/-- `DrawingRectItem::shape()`: empty for an invalid item; otherwise the
stroke of the rounded rect (pen width clamped below by the minimum pen
width), with the fill path added when the brush color alpha is positive.
The minimum pen width and the brush alpha test are taken as parameters
(`DrawingItem::minimumPenWidth` and `DrawingItemStyle::brush` are not
in src/). -/
def RectItem.shape (item : RectItem) (defaults : DefaultTable)
    (minPenWidth : ℚ) (brushAlphaPositive : Bool) : PainterPath :=
  if item.isValid then
    let drawPath := PainterPath.roundedRect item.rect.normalized
      item.cornerRadiusX item.cornerRadiusY
    let penWidth := max (valueLookup item.style defaults .penWidth .invalid).toReal minPenWidth
    let outline := PainterPath.stroke drawPath penWidth
    if brushAlphaPositive then PainterPath.unionPath outline drawPath else outline
  else PainterPath.empty

/-- Modelled from the spec (`DrawingItem.cpp` is not in src/): the base-class
`DrawingItem::resizeItem(point, scenePos)` maps the scene position into local
coordinates and sets the local position of that point (spec §4.4).  The
point is identified by its index in the point list of the item. -/
def RectItem.baseResize (item : RectItem) (idx : ℕ) (scenePos : PointF) : RectItem :=
  { item with points := item.points.set idx (item.mapFromScene scenePos) }

/-- The `switch (pointIndex)` of `DrawingRectItem::resizeItem`: updates the
rect from the moved point according to its geometric role. -/
def updateRectFromPoint (r : RectF) (idx : ℕ) (p : PointF) : RectF :=
  match idx with
  | 0 => r.setTopLeft p
  | 1 => r.setTop p.y
  | 2 => r.setTopRight p
  | 3 => r.setRight p.x
  | 4 => r.setBottomRight p
  | 5 => r.setBottom p.y
  | 6 => r.setBottomLeft p
  | 7 => r.setLeft p.x
  | _ => r

/-- Lines 196–228 of `DrawingRectItem::resizeItem`: the base-class resize,
then — when the item has at least 8 points and the moved point is one of
the first 8 — the rect update and the re-derivation of all 8 points. -/
def RectItem.resizeCore (item : RectItem) (idx : ℕ) (scenePos : PointF) : RectItem :=
  let item1 := item.baseResize idx scenePos
  if 8 ≤ item1.points.length ∧ idx < 8 then
    let p := item1.points.getD idx pOrigin
    let r := updateRectFromPoint item1.rect idx p
    { item1 with points := rectPoints r ++ item1.points.drop 8 }
  else item1

/-- Lines 230–238 of `DrawingRectItem::resizeItem`: subtract the first
position of the first point from every point and move the item position to the
scene-mapped position of the first point. -/
def RectItem.renormalize (item : RectItem) : RectItem :=
  let deltaPos := -(item.points.headD pOrigin)
  let pointScenePos := item.mapToScene (item.points.headD pOrigin)
  { item with
    points := item.points.map (fun p => p + deltaPos)
    position := pointScenePos }

/-- `DrawingRectItem::resizeItem(point, scenePos)` in full. -/
def RectItem.resizeItem (item : RectItem) (idx : ℕ) (scenePos : PointF) : RectItem :=
  (item.resizeCore idx scenePos).renormalize

/-- Squared Euclidean distance between two points. -/
def sqDist (p q : PointF) : ℚ := (p.x - q.x) ^ 2 + (p.y - q.y) ^ 2

/-- Modelled from the spec (`DrawingPolygonItem.cpp` is not in src/):
`DrawingPolygonItem::itemPointToRemove(itemPos)` returns the item point
nearest to `itemPos`, except that a polygon must always keep a minimum of
three points: if the item only has three points (or fewer), it returns no
point.  The point list holds the polygon point positions. -/
def itemPointToRemove (pts : List PointF) (itemPos : PointF) : Option PointF :=
  if 3 < pts.length then pts.argmin (fun p => sqDist p itemPos) else none

/-- The geometric roles of the first eight item points of a rect item:
points 0, 2, 4, 6 at the corners and points 1, 3, 5, 7 at the edge
midpoints of the rect spanned by points 0 and 4. -/
def RectItem.pointsFollowRect (t : RectItem) : Prop :=
  t.points.getD 0 pOrigin = ⟨t.rect.left, t.rect.top⟩ ∧
  t.points.getD 1 pOrigin = ⟨t.rect.centerX, t.rect.top⟩ ∧
  t.points.getD 2 pOrigin = ⟨t.rect.right, t.rect.top⟩ ∧
  t.points.getD 3 pOrigin = ⟨t.rect.right, t.rect.centerY⟩ ∧
  t.points.getD 4 pOrigin = ⟨t.rect.right, t.rect.bottom⟩ ∧
  t.points.getD 5 pOrigin = ⟨t.rect.centerX, t.rect.bottom⟩ ∧
  t.points.getD 6 pOrigin = ⟨t.rect.left, t.rect.bottom⟩ ∧
  t.points.getD 7 pOrigin = ⟨t.rect.left, t.rect.centerY⟩

/-- An empty default table: no shared default values configured. -/
def noDefaults : DefaultTable := fun _ => none

end LibJade


namespace LibJade

/-! Basic component lemmas for `PointF` arithmetic and list access. -/

theorem PointF.add_def (p q : PointF) : p + q = ⟨p.x + q.x, p.y + q.y⟩ := rfl

theorem PointF.neg_def (p : PointF) : -p = ⟨-p.x, -p.y⟩ := rfl

theorem PointF.sub_def (p q : PointF) : p - q = ⟨p.x - q.x, p.y - q.y⟩ := rfl

theorem getD_map_of_lt (f : PointF → PointF) (d : PointF) :
    ∀ (l : List PointF) (i : ℕ), i < l.length → (l.map f).getD i d = f (l.getD i d) := by
  intro l
  induction l with
  | nil => intro i hi; simp at hi
  | cons a t ih =>
    intro i hi
    cases i with
    | zero => simp
    | succ n => simpa using ih n (by simpa using hi)

theorem headD_map (f : PointF → PointF) (d : PointF) (l : List PointF) (h : l ≠ []) :
    (l.map f).headD d = f (l.headD d) := by
  cases l with
  | nil => exact absurd rfl h
  | cons a t => simp

theorem newRectItem_points (d : DefaultTable) :
    (newRectItem d).points =
      [pOrigin, pOrigin, pOrigin, pOrigin, pOrigin, pOrigin, pOrigin, pOrigin] := rfl

/-! Structural lemmas about `resizeItem` and its two stages. -/

theorem length_baseResize (s : RectItem) (i : ℕ) (p : PointF) :
    (s.baseResize i p).points.length = s.points.length := by
  simp [RectItem.baseResize]

theorem length_resizeCore (s : RectItem) (i : ℕ) (p : PointF) (h8 : 8 ≤ s.points.length) :
    (s.resizeCore i p).points.length = s.points.length := by
  rw [RectItem.resizeCore]
  split
  · simp [rectPoints, length_baseResize, RectItem.baseResize]
    omega
  · exact length_baseResize s i p

theorem transform_resizeCore (s : RectItem) (i : ℕ) (p : PointF) :
    (s.resizeCore i p).transform = s.transform := by
  rw [RectItem.resizeCore]
  split <;> simp [RectItem.baseResize]

/-- Renormalization preserves the scene-space position of every point when
the item transform is linear: shifting every local point by the common delta
and moving the item position by the scene-mapped delta cancel exactly. -/
theorem renormalize_preserves_scene (t : RectItem)
    (hlin : t.transform.IsLinear) (i : ℕ) (hi : i < t.points.length) :
    t.renormalize.mapToScene (t.renormalize.points.getD i pOrigin)
      = t.mapToScene (t.points.getD i pOrigin) := by
  obtain ⟨hdx, hdy⟩ := hlin
  simp only [RectItem.renormalize, RectItem.mapToScene]
  rw [getD_map_of_lt _ _ _ _ hi]
  simp only [Transform2D.apply, PointF.add_def, PointF.neg_def, hdx, hdy]
  refine congrArg₂ PointF.mk ?_ ?_ <;> ring

/-- C2: after `resizeItem` the first point sits at the local origin, and the
renormalization step leaves the scene-space position of every point exactly
what it was before that step, provided the item transform is linear. -/
theorem resizeItem_renormalization_preserves_scene (s : RectItem) (idx : ℕ) (sp : PointF)
    (h8 : 8 ≤ s.points.length) (hlin : s.transform.IsLinear) :
    (s.resizeItem idx sp).points.headD pOrigin = pOrigin ∧
    ∀ i, i < (s.resizeCore idx sp).points.length →
      (s.resizeCore idx sp).renormalize.mapToScene
          ((s.resizeCore idx sp).renormalize.points.getD i pOrigin)
        = (s.resizeCore idx sp).mapToScene ((s.resizeCore idx sp).points.getD i pOrigin) := by
  have hlen : (s.resizeCore idx sp).points.length = s.points.length :=
    length_resizeCore s idx sp h8
  have hne : (s.resizeCore idx sp).points ≠ [] := by
    intro e
    rw [e] at hlen
    simp at hlen
    omega
  constructor
  · rw [RectItem.resizeItem, RectItem.renormalize]
    simp only
    rw [headD_map _ _ _ hne]
    simp [PointF.add_def, PointF.neg_def, pOrigin]
  · intro i hi
    exact renormalize_preserves_scene _
      (by rw [Transform2D.IsLinear, transform_resizeCore]; exact hlin) i hi

/-- Witness for C2 at a concrete resize of a fresh rect item. -/
theorem resizeItem_renormalization_witness :
    (8 ≤ (newRectItem noDefaults).points.length ∧
      (newRectItem noDefaults).transform.IsLinear) ∧
    (((newRectItem noDefaults).resizeItem 4 ⟨10, 20⟩).points.headD pOrigin = pOrigin ∧
    ∀ i, i < ((newRectItem noDefaults).resizeCore 4 ⟨10, 20⟩).points.length →
      ((newRectItem noDefaults).resizeCore 4 ⟨10, 20⟩).renormalize.mapToScene
          (((newRectItem noDefaults).resizeCore 4 ⟨10, 20⟩).renormalize.points.getD i pOrigin)
        = ((newRectItem noDefaults).resizeCore 4 ⟨10, 20⟩).mapToScene
            (((newRectItem noDefaults).resizeCore 4 ⟨10, 20⟩).points.getD i pOrigin)) :=
  ⟨⟨by decide, rfl, rfl⟩,
   resizeItem_renormalization_preserves_scene _ 4 ⟨10, 20⟩ (by decide) ⟨rfl, rfl⟩⟩

end LibJade

namespace LibJade

/-- C1: the source of `setCornerRadii(radiusX, radiusY)` assigns both
arguments into the X-radius field, so on a fresh item `setCornerRadii(1, 2)`
leaves `cornerRadiusX` at `2` (the Y argument) and `cornerRadiusY` at `0`
(its stale prior value) — not `1` and `2` as the claim requires. -/
theorem setCornerRadii_assigns_y_into_x :
    ((newRectItem noDefaults).setCornerRadii 1 2).cornerRadiusX = 2 ∧
    ((newRectItem noDefaults).setCornerRadii 1 2).cornerRadiusY = 0 := by
  constructor <;> rfl

/-- C3 counterexample: a rect set to width 5 and height 0 (zero area, only
one dimension zero) has `isValid() = true`, contradicting the claim that
such a rect is invalid. -/
theorem isValid_zero_height_counterexample :
    (((newRectItem noDefaults).setRect ⟨0, 0, 5, 0⟩).rect.w = 5 ∧
     ((newRectItem noDefaults).setRect ⟨0, 0, 5, 0⟩).rect.h = 0) ∧
    ((newRectItem noDefaults).setRect ⟨0, 0, 5, 0⟩).isValid = true := by
  refine ⟨⟨?_, ?_⟩, ?_⟩ <;>
    simp [newRectItem, RectItem.setRect, RectItem.rect, RectItem.isValid, rectPoints,
      RectF.fromPoints, RectF.left, RectF.right, RectF.top, RectF.bottom, RectF.centerX,
      RectF.centerY, pOrigin]

/-- C3 (amended): `isValid()` is false exactly when the item has fewer than
8 points or points 0 and 4 coincide; consequently, after `setRect r` on an
item with at least 8 points, the item is valid iff the rect has nonzero
width or nonzero height — a rect with exactly one zero dimension is still
reported valid. -/
theorem isValid_iff_corner_points_differ (s : RectItem) (r : RectF)
    (h8 : 8 ≤ s.points.length) :
    (s.isValid = false ↔
      (s.points.length < 8 ∨ s.points.getD 0 pOrigin = s.points.getD 4 pOrigin)) ∧
    ((s.setRect r).isValid = true ↔ (r.w ≠ 0 ∨ r.h ≠ 0)) := by
  constructor
  · simp [RectItem.isValid, decide_eq_false_iff_not, not_and_or, not_le, not_not]
    constructor
    · intro f
      exact Or.inr (f h8)
    · rintro (hlt | he)
      · omega
      · intro _
        exact he
  · simp [RectItem.setRect, RectItem.isValid, rectPoints, RectF.left, RectF.top,
      RectF.right, RectF.bottom, pOrigin, self_eq_add_right]

/-- Witness for the amended C3 on a fresh item and a zero-height rect. -/
theorem isValid_iff_witness :
    8 ≤ (newRectItem noDefaults).points.length ∧
    (((newRectItem noDefaults).isValid = false ↔
       ((newRectItem noDefaults).points.length < 8 ∨
        (newRectItem noDefaults).points.getD 0 pOrigin
          = (newRectItem noDefaults).points.getD 4 pOrigin)) ∧
     (((newRectItem noDefaults).setRect ⟨0, 0, 5, 0⟩).isValid = true ↔
       ((5 : ℚ) ≠ 0 ∨ (0 : ℚ) ≠ 0))) :=
  ⟨by decide, isValid_iff_corner_points_differ _ ⟨0, 0, 5, 0⟩ (by decide)⟩

/-- C4: for a valid rect item, `boundingRect()` is exactly the normalized
rect spanned by points 0 and 4, expanded on every side by half the pen
width resolved from the item style — computed from the point positions
alone. -/
theorem boundingRect_from_corner_points (s : RectItem) (defaults : DefaultTable)
    (h : s.isValid = true) :
    s.boundingRect defaults =
      ((RectF.fromPoints (s.points.getD 0 pOrigin) (s.points.getD 4 pOrigin)).normalized).adjust
        (-((valueLookup s.style defaults .penWidth .invalid).toReal / 2))
        (-((valueLookup s.style defaults .penWidth .invalid).toReal / 2))
        ((valueLookup s.style defaults .penWidth .invalid).toReal / 2)
        ((valueLookup s.style defaults .penWidth .invalid).toReal / 2) := by
  have h8 : 8 ≤ s.points.length := (of_decide_eq_true h).1
  rw [RectItem.boundingRect, if_pos h]
  rw [RectItem.rect, if_pos h8]

/-- Witness for C4 on a concrete valid rect item. -/
theorem boundingRect_witness :
    ((newRectItem noDefaults).setRect ⟨0, 0, 5, 3⟩).isValid = true ∧
    ((newRectItem noDefaults).setRect ⟨0, 0, 5, 3⟩).boundingRect noDefaults =
      ((RectF.fromPoints
          (((newRectItem noDefaults).setRect ⟨0, 0, 5, 3⟩).points.getD 0 pOrigin)
          (((newRectItem noDefaults).setRect ⟨0, 0, 5, 3⟩).points.getD 4 pOrigin)).normalized).adjust
        (-((valueLookup ((newRectItem noDefaults).setRect ⟨0, 0, 5, 3⟩).style noDefaults
            .penWidth .invalid).toReal / 2))
        (-((valueLookup ((newRectItem noDefaults).setRect ⟨0, 0, 5, 3⟩).style noDefaults
            .penWidth .invalid).toReal / 2))
        ((valueLookup ((newRectItem noDefaults).setRect ⟨0, 0, 5, 3⟩).style noDefaults
            .penWidth .invalid).toReal / 2)
        ((valueLookup ((newRectItem noDefaults).setRect ⟨0, 0, 5, 3⟩).style noDefaults
            .penWidth .invalid).toReal / 2) := by
  have h : ((newRectItem noDefaults).setRect ⟨0, 0, 5, 3⟩).isValid = true := by
    simp [newRectItem, RectItem.setRect, RectItem.isValid, rectPoints,
      RectF.left, RectF.right, RectF.top, RectF.bottom, RectF.centerX, RectF.centerY, pOrigin]
  exact ⟨h, boundingRect_from_corner_points _ noDefaults h⟩

end LibJade

namespace LibJade

/-- The eight positions derived from any rect and then shifted by any common
delta sit at the corners and edge midpoints of the rect they span. -/
theorem followers_of_shifted_rectPoints (R : RectF) (d : PointF) (rest : List PointF) :
    let ps := (rectPoints R ++ rest).map (fun p => p + d)
    let r := RectF.fromPoints (ps.getD 0 pOrigin) (ps.getD 4 pOrigin)
    ps.getD 0 pOrigin = ⟨r.left, r.top⟩ ∧
    ps.getD 1 pOrigin = ⟨r.centerX, r.top⟩ ∧
    ps.getD 2 pOrigin = ⟨r.right, r.top⟩ ∧
    ps.getD 3 pOrigin = ⟨r.right, r.centerY⟩ ∧
    ps.getD 4 pOrigin = ⟨r.right, r.bottom⟩ ∧
    ps.getD 5 pOrigin = ⟨r.centerX, r.bottom⟩ ∧
    ps.getD 6 pOrigin = ⟨r.left, r.bottom⟩ ∧
    ps.getD 7 pOrigin = ⟨r.left, r.centerY⟩ := by
  refine ⟨?_, ?_, ?_, ?_, ?_, ?_, ?_, ?_⟩ <;>
    simp [rectPoints, RectF.fromPoints, RectF.left, RectF.top, RectF.right, RectF.bottom,
      RectF.centerX, RectF.centerY, PointF.add_def]
  all_goals first | exact ⟨by ring, by ring⟩ | ring

theorem points_resizeCore_eq (s : RectItem) (idx : ℕ) (sp : PointF)
    (h8 : 8 ≤ s.points.length) (hidx : idx < 8) :
    (s.resizeCore idx sp).points =
      rectPoints (updateRectFromPoint (s.baseResize idx sp).rect idx
          ((s.baseResize idx sp).points.getD idx pOrigin))
        ++ (s.baseResize idx sp).points.drop 8 := by
  rw [RectItem.resizeCore]
  rw [if_pos]
  constructor
  · simpa [RectItem.baseResize] using h8
  · exact hidx

/-- C5: after `resizeItem` moves any one of the first eight points, all
eight points are re-derived from the rect spanned by points 0 and 4:
points 0, 2, 4, 6 sit at its corners and points 1, 3, 5, 7 at the
midpoints of its edges. -/
theorem resizeItem_rederives_follower_points (s : RectItem) (idx : ℕ) (sp : PointF)
    (h8 : 8 ≤ s.points.length) (hidx : idx < 8) :
    (s.resizeItem idx sp).pointsFollowRect := by
  have hcore := points_resizeCore_eq s idx sp h8 hidx
  have hpoints : (s.resizeItem idx sp).points =
      (rectPoints (updateRectFromPoint (s.baseResize idx sp).rect idx
          ((s.baseResize idx sp).points.getD idx pOrigin))
        ++ (s.baseResize idx sp).points.drop 8).map
        (fun p => p + -(((s.resizeCore idx sp).points).headD pOrigin)) := by
    rw [RectItem.resizeItem, RectItem.renormalize]
    simp only [hcore]
  have hlen : 8 ≤ (s.resizeItem idx sp).points.length := by
    rw [hpoints]
    simp [rectPoints]
  have hrect : (s.resizeItem idx sp).rect =
      RectF.fromPoints ((s.resizeItem idx sp).points.getD 0 pOrigin)
        ((s.resizeItem idx sp).points.getD 4 pOrigin) := by
    rw [RectItem.rect, if_pos hlen]
  unfold RectItem.pointsFollowRect
  rw [hrect, hpoints]
  exact followers_of_shifted_rectPoints _ _ _

/-- Witness for C5 at a concrete resize of the top-right point. -/
theorem resizeItem_rederives_witness :
    (8 ≤ (newRectItem noDefaults).points.length ∧ (2 : ℕ) < 8) ∧
    ((newRectItem noDefaults).resizeItem 2 ⟨7, 3⟩).pointsFollowRect :=
  ⟨⟨by decide, by decide⟩,
   resizeItem_rederives_follower_points _ 2 ⟨7, 3⟩ (by decide) (by decide)⟩

/-- C6: a freshly constructed rect item reads back the zero-size rect at
the origin; resizing any corner point of a fresh item moves that corner to
the requested scene position while the scene position of the opposite
corner point stays at the origin (renormalization shifts local
coordinates, so corner positions are compared in scene space), and for the
bottom-right point the local `rect()` is literally the rect from the
origin to the requested position. -/
theorem fresh_rect_and_corner_resize (d : DefaultTable) (v : PointF) :
    (newRectItem d).rect = RectF.nullRect ∧
    (((newRectItem d).resizeItem 0 v).mapToScene
        (((newRectItem d).resizeItem 0 v).points.getD 0 pOrigin) = v ∧
      ((newRectItem d).resizeItem 0 v).mapToScene
        (((newRectItem d).resizeItem 0 v).points.getD 4 pOrigin) = pOrigin) ∧
    (((newRectItem d).resizeItem 2 v).mapToScene
        (((newRectItem d).resizeItem 2 v).points.getD 2 pOrigin) = v ∧
      ((newRectItem d).resizeItem 2 v).mapToScene
        (((newRectItem d).resizeItem 2 v).points.getD 6 pOrigin) = pOrigin) ∧
    (((newRectItem d).resizeItem 4 v).mapToScene
        (((newRectItem d).resizeItem 4 v).points.getD 4 pOrigin) = v ∧
      ((newRectItem d).resizeItem 4 v).mapToScene
        (((newRectItem d).resizeItem 4 v).points.getD 0 pOrigin) = pOrigin) ∧
    (((newRectItem d).resizeItem 6 v).mapToScene
        (((newRectItem d).resizeItem 6 v).points.getD 6 pOrigin) = v ∧
      ((newRectItem d).resizeItem 6 v).mapToScene
        (((newRectItem d).resizeItem 6 v).points.getD 2 pOrigin) = pOrigin) ∧
    ((newRectItem d).resizeItem 4 v).rect = RectF.fromPoints pOrigin v := by
  obtain ⟨a, b⟩ := v
  refine ⟨?_, ⟨?_, ?_⟩, ⟨?_, ?_⟩, ⟨?_, ?_⟩, ⟨?_, ?_⟩, ?_⟩ <;>
    simp [newRectItem_points, RectItem.resizeItem, RectItem.resizeCore, RectItem.baseResize,
      RectItem.renormalize, RectItem.mapFromScene, RectItem.mapToScene, Transform2D.apply,
      Transform2D.identity, RectItem.rect, rectPoints, updateRectFromPoint,
      RectF.setTopLeft, RectF.setTopRight, RectF.setBottomRight, RectF.setBottomLeft,
      RectF.fromPoints, RectF.nullRect, RectF.left, RectF.top, RectF.right, RectF.bottom,
      RectF.centerX, RectF.centerY, PointF.add_def, PointF.sub_def, PointF.neg_def, pOrigin,
      newRectItem]

end LibJade

namespace LibJade

/-- C7: construction resolves each of the nine pen/brush style properties
via `valueLookup` against the defaults current at construction time and
writes the resolved value back into the own local table of the item, so a
later change of the shared default table does not alter the resolved
values. -/
theorem construction_localizes_style_values (d dLater : DefaultTable) (k : StyleProperty) :
    (newRectItem d).style.localValue k
        = some (valueLookup ItemStyle.empty d k (constructorFallback k)) ∧
    valueLookup (newRectItem d).style dLater k (constructorFallback k)
        = valueLookup (newRectItem d).style d k (constructorFallback k) := by
  cases k <;>
    simp [newRectItem, seedStyle, seededProperties, ItemStyle.setValue, ItemStyle.empty,
      valueLookup, constructorFallback]

/-- Geometry of an invalid item degrades to the empty rect and empty path. -/
theorem invalid_empty_geometry (s : RectItem) (defaults : DefaultTable)
    (minPW : ℚ) (bAlpha : Bool) (h : s.isValid = false) :
    s.boundingRect defaults = RectF.nullRect ∧
    s.shape defaults minPW bAlpha = PainterPath.empty := by
  constructor <;> simp [RectItem.boundingRect, RectItem.shape, h]

/-- C8: whenever `isValid()` is false, `boundingRect()` returns the empty
(default) rect and `shape()` returns the empty path, with no geometry
computed from the degenerate points. -/
theorem invalid_item_empty_geometry (s : RectItem) (defaults : DefaultTable)
    (minPW : ℚ) (bAlpha : Bool) (h : s.isValid = false) :
    s.boundingRect defaults = RectF.nullRect ∧
    s.shape defaults minPW bAlpha = PainterPath.empty :=
  invalid_empty_geometry s defaults minPW bAlpha h

/-- Witness for C8: a fresh rect item is invalid (all points coincide). -/
theorem invalid_item_empty_geometry_witness :
    (newRectItem noDefaults).isValid = false ∧
    ((newRectItem noDefaults).boundingRect noDefaults = RectF.nullRect ∧
     (newRectItem noDefaults).shape noDefaults 0 true = PainterPath.empty) := by
  have h : (newRectItem noDefaults).isValid = false := by
    simp [newRectItem, RectItem.isValid, pOrigin]
  exact ⟨h, invalid_item_empty_geometry _ noDefaults 0 true h⟩

/-- C9: for a polygon with exactly three points, `itemPointToRemove`
returns no point at every position; with four or more points it returns
an existing point nearest to the given position, so removal leaves at
least three points. -/
theorem itemPointToRemove_refuses_then_nearest (pts : List PointF) (pos : PointF) :
    (pts.length = 3 → itemPointToRemove pts pos = none) ∧
    (4 ≤ pts.length →
      ∃ p, itemPointToRemove pts pos = some p ∧ p ∈ pts ∧ 3 ≤ pts.length - 1 ∧
        ∀ q ∈ pts, sqDist p pos ≤ sqDist q pos) := by
  constructor
  · intro h
    simp [itemPointToRemove, h]
  · intro h
    have hlen : 3 < pts.length := by omega
    have hne : pts ≠ [] := by
      intro e
      rw [e] at hlen
      simp at hlen
    obtain ⟨p, hp⟩ : ∃ p, pts.argmin (fun q => sqDist q pos) = some p := by
      cases e : pts.argmin (fun q => sqDist q pos) with
      | none => exact absurd (List.argmin_eq_none.mp e) hne
      | some p => exact ⟨p, rfl⟩
    refine ⟨p, ?_, List.argmin_mem hp, by omega, fun q hq => List.le_of_mem_argmin hq hp⟩
    simp [itemPointToRemove, hlen, hp]

/-- Witness for C9 on a triangle (refusal) and a quadrilateral (removal). -/
theorem itemPointToRemove_witness :
    (([⟨0, 0⟩, ⟨1, 0⟩, ⟨0, 1⟩] : List PointF).length = 3 ∧
      itemPointToRemove [⟨0, 0⟩, ⟨1, 0⟩, ⟨0, 1⟩] ⟨1, 0⟩ = none) ∧
    (4 ≤ ([⟨0, 0⟩, ⟨1, 0⟩, ⟨0, 1⟩, ⟨1, 1⟩] : List PointF).length ∧
      ∃ p, itemPointToRemove [⟨0, 0⟩, ⟨1, 0⟩, ⟨0, 1⟩, ⟨1, 1⟩] ⟨1, 0⟩ = some p ∧
        p ∈ ([⟨0, 0⟩, ⟨1, 0⟩, ⟨0, 1⟩, ⟨1, 1⟩] : List PointF) ∧
        3 ≤ ([⟨0, 0⟩, ⟨1, 0⟩, ⟨0, 1⟩, ⟨1, 1⟩] : List PointF).length - 1 ∧
        ∀ q ∈ ([⟨0, 0⟩, ⟨1, 0⟩, ⟨0, 1⟩, ⟨1, 1⟩] : List PointF),
          sqDist p ⟨1, 0⟩ ≤ sqDist q ⟨1, 0⟩) :=
  ⟨⟨rfl, (itemPointToRemove_refuses_then_nearest _ _).1 rfl⟩,
   ⟨by decide, (itemPointToRemove_refuses_then_nearest _ _).2 (by decide)⟩⟩

/-- C10: a rect item with fewer than 8 points degrades totally: `rect()`
is the default (null) rect, `isValid()` is false, `boundingRect()` is the
empty rect and `shape()` is the empty path. -/
theorem short_point_list_degrades (s : RectItem) (defaults : DefaultTable)
    (minPW : ℚ) (bAlpha : Bool) (h : s.points.length < 8) :
    s.rect = RectF.nullRect ∧ s.isValid = false ∧
    s.boundingRect defaults = RectF.nullRect ∧
    s.shape defaults minPW bAlpha = PainterPath.empty := by
  have hv : s.isValid = false := by
    simp [RectItem.isValid]
    omega
  have he := invalid_empty_geometry s defaults minPW bAlpha hv
  refine ⟨?_, hv, he.1, he.2⟩
  simp [RectItem.rect]
  omega

/-- Witness for C10 with an empty point list. -/
theorem short_point_list_degrades_witness :
    let s : RectItem :=
      { position := pOrigin, transform := Transform2D.identity,
        transformInverse := Transform2D.identity, points := [],
        cornerRadiusX := 0, cornerRadiusY := 0, style := ItemStyle.empty }
    s.points.length < 8 ∧
    (s.rect = RectF.nullRect ∧ s.isValid = false ∧
     s.boundingRect noDefaults = RectF.nullRect ∧
     s.shape noDefaults 0 true = PainterPath.empty) :=
  ⟨by decide, short_point_list_degrades _ noDefaults 0 true (by decide)⟩

end LibJade
